import Mathlib

/-!
Verification of `pydbxcli` (src/pydbxcli.py) against its specification.

The Python source is shallowly embedded below: each relevant function of
`pydbxcli.py` becomes a pure Lean function over an explicit state, with
filesystem and remote-service effects supplied as boolean oracles and with
the printed / performed side effects reified as event lists.  Machine-level
concerns that the claims do not touch (UTF-8 byte encoding of JSON text,
POSIX timestamp conversion of parsed datetimes) are abstracted as noted in
the doc comments of the corresponding definitions.
-/

namespace Pydbxcli

/-- A calendar timestamp at second resolution, the shape produced by
`datetime.strptime(s, "%Y-%m-%dT%H:%M:%S")` and serialized by
`datetime.isoformat()` for Dropbox metadata (which has no microseconds). -/
structure DateTime where
  year : Nat
  month : Nat
  day : Nat
  hour : Nat
  minute : Nat
  second : Nat
deriving DecidableEq, Repr

/-- Number of days in a month, with Gregorian leap years, as validated by
Python's `datetime.strptime`. -/
def daysInMonth (y m : Nat) : Nat :=
  if m = 2 then (if (y % 4 = 0 ∧ y % 100 ≠ 0) ∨ y % 400 = 0 then 29 else 28)
  else if m = 4 ∨ m = 6 ∨ m = 9 ∨ m = 11 then 30
  else 31

def isDigit (c : Char) : Bool := '0' ≤ c && c ≤ '9'

def digitVal (c : Char) : Nat := c.toNat - '0'.toNat

/-- Embeds `datetime.strptime(s, "%Y-%m-%dT%H:%M:%S")` (src line 221/223):
parse a `YYYY-MM-DDTHH:MM:SS` string, `none` when the string does not match
(in Python a `ValueError` is raised).  Zero-padded fixed-width fields are
required; `strptime`'s tolerance for 1-digit month/day/time fields is
abstracted away (no claim depends on non-padded inputs). -/
def strptimeIso (s : String) : Option DateTime :=
  match s.toList with
  | [y1, y2, y3, y4, '-', m1, m2, '-', d1, d2, 'T',
     h1, h2, ':', n1, n2, ':', s1, s2] =>
    if ([y1, y2, y3, y4, m1, m2, d1, d2, h1, h2, n1, n2, s1, s2].all isDigit) then
      let y := digitVal y1 * 1000 + digitVal y2 * 100 + digitVal y3 * 10 + digitVal y4
      let mo := digitVal m1 * 10 + digitVal m2
      let da := digitVal d1 * 10 + digitVal d2
      let ho := digitVal h1 * 10 + digitVal h2
      let mi := digitVal n1 * 10 + digitVal n2
      let se := digitVal s1 * 10 + digitVal s2
      if 1 ≤ y ∧ y ≤ 9999 ∧ 1 ≤ mo ∧ mo ≤ 12 ∧ 1 ≤ da ∧ da ≤ daysInMonth y mo
          ∧ ho ≤ 23 ∧ mi ≤ 59 ∧ se ≤ 59 then
        some ⟨y, mo, da, ho, mi, se⟩
      else none
    else none
  | _ => none

def pad2 (n : Nat) : String := if n < 10 then "0" ++ toString n else toString n

def pad4 (n : Nat) : String :=
  if n < 10 then "000" ++ toString n
  else if n < 100 then "00" ++ toString n
  else if n < 1000 then "0" ++ toString n
  else toString n

/-- Embeds `datetime.isoformat()` as used by `json_serial` (src lines 300-306)
on Dropbox timestamps (second resolution, so no microsecond part). -/
def isoformat (d : DateTime) : String :=
  pad4 d.year ++ "-" ++ pad2 d.month ++ "-" ++ pad2 d.day ++ "T" ++
    pad2 d.hour ++ ":" ++ pad2 d.minute ++ ":" ++ pad2 d.second

/-- A timestamp attribute value as `copy_dropbox_file` may encounter it:
an already-structured `datetime` (live Dropbox entry), a string (entry
deserialized from the queue), or absent (attribute access raises). -/
inductive Tm where
  | dt (d : DateTime)
  | str (s : String)
  | absent
deriving DecidableEq, Repr

/-- Embeds src lines 217-223: take the field as-is when it is structured,
`strptime` it when it is a string; `none` marks the raised exception
(a parse failure, or the attribute access raising on an absent field). -/
def resolveTm : Tm → Option DateTime
  | .dt d => some d
  | .str s => strptimeIso s
  | .absent => none

/-- Embeds Python's `s.startswith(pre)` on the character list of `s`. -/
def startsWithL : List Char → List Char → Bool
  | _, [] => true
  | [], _ :: _ => false
  | c :: cs, p :: ps => c == p && startsWithL cs ps

def pyStartswith (s pre : String) : Bool := startsWithL s.toList pre.toList

/-- Embeds the truthiness test `not getattr(entry, 'size', None)`
(src line 183): `None` and `0` are falsy, every other integer truthy. -/
def sizeTruthy : Option Nat → Bool
  | none => false
  | some n => n != 0

/-- Index one past the last `/` of the list, `0` when there is none
(Python `p.rfind('/') + 1`). -/
def lastSlashEnd : List Char → Nat
  | [] => 0
  | c :: rest =>
    let r := lastSlashEnd rest
    if r > 0 then r + 1 else if c = '/' then 1 else 0

/-- Embeds `os.path.dirname` for POSIX paths (src line 195): the part of the
path before the final `/`, with trailing slashes stripped unless the head is
all slashes. -/
def dirname (p : String) : String :=
  let cs := p.toList
  let head := cs.take (lastSlashEnd cs)
  if head ≠ [] ∧ head.any (fun c => c ≠ '/') then
    String.mk ((head.reverse.dropWhile (fun c => c = '/')).reverse)
  else String.mk head

/-- The duck-typed view of an entry as `copy_dropbox_file` reads it:
`path_display`, an optional `size` (`getattr(entry, 'size', None)`), and the
two modification timestamps in whichever form they carry. -/
structure Entry where
  path_display : String
  size : Option Nat
  server_modified : Tm
  client_modified : Tm
deriving DecidableEq, Repr

/-- A live entry returned by the Dropbox listing API: `FileMetadata`
carries path, size and both timestamps; `FolderMetadata` carries only the
path (so `getattr(entry, 'size', None)` yields `None` on it). -/
inductive RemoteEntry where
  | file (path_display : String) (size : Nat) (server_modified client_modified : DateTime)
  | folder (path_display : String)
deriving DecidableEq, Repr

def RemoteEntry.path_display : RemoteEntry → String
  | .file p _ _ _ => p
  | .folder p => p

def RemoteEntry.size? : RemoteEntry → Option Nat
  | .file _ s _ _ => some s
  | .folder _ => none

def RemoteEntry.client_modified? : RemoteEntry → Option DateTime
  | .file _ _ _ cm => some cm
  | .folder _ => none

/-- A live entry seen through the duck-typed view of `copy_dropbox_file`. -/
def RemoteEntry.toEntry : RemoteEntry → Entry
  | .file p s sm cm => ⟨p, some s, .dt sm, .dt cm⟩
  | .folder p => ⟨p, none, .absent, .absent⟩

/-- The decoded fields of a Work Item, the unit pushed onto the queue by
`ls` (src lines 161-166): the four attributes assigned to the `FakeFile`
instance, whose `__dict__` is JSON-serialized. -/
structure WorkItem where
  path_display : String
  size : Nat
  server_modified : String
  client_modified : String
deriving DecidableEq, Repr

/-- The entry view that `get` builds from a popped Work Item via
`json.loads(..., object_hook=namedtuple...)` (src line 243): all four keys
present, timestamps as strings. -/
def WorkItem.toEntry (w : WorkItem) : Entry :=
  ⟨w.path_display, some w.size, .str w.server_modified, .str w.client_modified⟩

/-- A JSON value, the parsed form of a queue blob.  The UTF-8 text encoding
(`json.dumps` / `str.encode` on push, `bytes.decode` / `json.loads` on pop)
is abstracted: both pairs are mutually inverse, so blobs are modelled at the
JSON-value level. -/
inductive Json where
  | str (s : String)
  | num (n : Nat)
  | obj (kvs : List (String × Json))

/-- Embeds `json.dumps(file.__dict__)` for the `FakeFile` built at src lines
161-165: a JSON object whose keys appear in the assignment (insertion)
order. -/
def encodeWorkItem (w : WorkItem) : Json :=
  .obj [("path_display", .str w.path_display),
        ("size", .num w.size),
        ("server_modified", .str w.server_modified),
        ("client_modified", .str w.client_modified)]

def Json.keys : Json → List String
  | .obj kvs => kvs.map Prod.fst
  | _ => []

def lookupKey : List (String × Json) → String → Option Json
  | [], _ => none
  | (k, v) :: rest, key => if k = key then some v else lookupKey rest key

def Json.lookupStr : Json → String → Option String
  | .obj kvs, key =>
    match lookupKey kvs key with
    | some (.str s) => some s
    | _ => none
  | _, _ => none

/-- Recover the four Work Item fields from a queue blob, as `get` reads
them after `json.loads` (src line 243). -/
def decodeWorkItem (j : Json) : Option WorkItem :=
  match j with
  | .obj kvs =>
    match lookupKey kvs "path_display", lookupKey kvs "size",
          lookupKey kvs "server_modified", lookupKey kvs "client_modified" with
    | some (.str p), some (.num s), some (.str sm), some (.str cm) =>
      some ⟨p, s, sm, cm⟩
    | _, _, _, _ => none
  | _ => none

/-- Oracles for the local-filesystem and remote-download effects performed
by `copy_dropbox_file`: whether a path exists, whether `os.makedirs`,
`files_download_to_file` and `os.utime` succeed at a given path. -/
structure Fs where
  pathExists : String → Bool
  mkdirOk : String → Bool
  downloadOk : String → Bool
  utimeOk : String → Bool

/-- The observable actions of `copy_dropbox_file`, in program order:
the two skip notices, the directory-creation attempt, the download request
and the final `os.utime` call (whose argument pair is `(atime, mtime)`). -/
inductive CEvent where
  | skipEmpty (path : String)
  | excluding (path : String)
  | creatingDir (dir : String)
  | downloading (src dest : String)
  | utime (dest : String) (atime mtime : DateTime)
deriving DecidableEq, Repr

/-- Whether the function returned normally or called `sys.exit(code)`. -/
inductive Outcome where
  | ok
  | exited (code : Nat)
deriving DecidableEq, Repr

structure CopyRes where
  events : List CEvent
  outcome : Outcome
deriving DecidableEq, Repr

def localDirOf (dest_path p : String) : String := dirname (dest_path ++ p)

def destOf (dest_path p : String) : String := dest_path ++ p

/-- Embeds `copy_dropbox_file` (src lines 181-228), the Transfer Executor:
skip empty/absent-size entries, skip excluded entries, create the local
directory when missing (failure exits 1), download (failure exits 1), then
parse both timestamps and apply `os.utime(dest, (server, client))`
(failure exits 1).  The dead in-place normalization of `args.src_path`
(src lines 192-193) touches a field this function never reads again and is
omitted; the conversion of parsed datetimes through `.timestamp()` is
abstracted by recording the parsed values themselves in the event. -/
def copy_dropbox_file (excludePaths : List String) (dest_path : String)
    (fs : Fs) (entry : Entry) : CopyRes :=
  if sizeTruthy entry.size = false then
    ⟨[.skipEmpty entry.path_display], .ok⟩
  else if excludePaths.any (pyStartswith entry.path_display) then
    ⟨[.excluding entry.path_display], .ok⟩
  else
    let local_dir := localDirOf dest_path entry.path_display
    let dest := destOf dest_path entry.path_display
    let mkEvents := if fs.pathExists local_dir then [] else [CEvent.creatingDir local_dir]
    if fs.pathExists local_dir = false ∧ fs.mkdirOk local_dir = false then
      ⟨mkEvents, .exited 1⟩
    else
      let evs := mkEvents ++ [CEvent.downloading entry.path_display dest]
      if fs.downloadOk dest = false then
        ⟨evs, .exited 1⟩
      else
        match resolveTm entry.server_modified, resolveTm entry.client_modified with
        | some m, some cm =>
          if fs.utimeOk dest then ⟨evs ++ [.utime dest m cm], .ok⟩
          else ⟨evs, .exited 1⟩
        | _, _ => ⟨evs, .exited 1⟩

def CEvent.isSkipEmpty : CEvent → Bool
  | .skipEmpty _ => true
  | _ => false

def CEvent.isExcluding : CEvent → Bool
  | .excluding _ => true
  | _ => false

def CEvent.isCreatingDir : CEvent → Bool
  | .creatingDir _ => true
  | _ => false

def CEvent.isDownloading : CEvent → Bool
  | .downloading _ _ => true
  | _ => false

def CEvent.isUtime : CEvent → Bool
  | .utime _ _ _ => true
  | _ => false

def hasCreatingC (es : List CEvent) : Bool := es.any CEvent.isCreatingDir

def hasDownloadingC (es : List CEvent) : Bool := es.any CEvent.isDownloading

def hasUtimeC (es : List CEvent) : Bool := es.any CEvent.isUtime

def hasExcludingC (es : List CEvent) : Bool := es.any CEvent.isExcluding

/-- Modelled from the spec: a handle on the queuelib `FifoDiskQueue`, whose
code is an external dependency not under src/.  Per the Work Queue contract
of the spec, `open(name)` resumes the persisted FIFO sequence, `pop`
physically removes the head immediately, and `push` buffers at the tail
until `close` commits; an abandoned (never-closed) handle loses its
uncommitted pushes while its pops remain effective.  The repository never
pops a handle it has pushed to, so `pop` reads the committed sequence. -/
structure Handle where
  front : List Json
  pending : List Json

/-- Modelled from the spec: `FifoDiskQueue(name)` (src `get_queue`, lines
273-274) opens the persisted sequence of the named queue. -/
def openQueue (store : List Json) : Handle := ⟨store, []⟩

def Handle.push (h : Handle) (b : Json) : Handle := ⟨h.front, h.pending ++ [b]⟩

def Handle.pop : Handle → Option Json × Handle
  | ⟨[], ps⟩ => (none, ⟨[], ps⟩)
  | ⟨b :: rest, ps⟩ => (some b, ⟨rest, ps⟩)

/-- Modelled from the spec: the persisted sequence after `close` commits
the buffered pushes behind the already-popped head. -/
def closeStore (h : Handle) : List Json := h.front ++ h.pending

/-- Modelled from the spec: the persisted sequence when the handle is
dropped without `close` — pops are already effective, uncommitted pushes
are lost. -/
def abandonStore (h : Handle) : List Json := h.front

/-- Embeds `get_files_in_queue` (src lines 259-271): pop until `pop`
yields nothing, appending each decoded blob to `result.entries`.
`result.entries` is the class-level `FakeFileList.entries` list (src lines
308-310), so the accumulator starts from the shared class state, passed
here explicitly as `shared`. -/
def get_files_in_queue : List Json → Handle → List Json × Handle
  | shared, ⟨[], ps⟩ => (shared, ⟨[], ps⟩)
  | shared, ⟨b :: rest, ps⟩ => get_files_in_queue (shared ++ [b]) ⟨rest, ps⟩

/-- Embeds the truthiness test `not args.queueName` (src line 129):
`None` (flag absent) and the empty string are falsy. -/
def pyTruthy : Option String → Bool
  | none => false
  | some s => !(s == "")

/-- The state `peek` touches: the class-level `FakeFileList.entries` list
(empty at process start) and the persisted sequence of the named queue. -/
structure PeekState where
  shared : List Json
  store : List Json

/-- Embeds `peek` (src lines 128-138): return immediately when no queue
name was supplied; otherwise open the queue, drain it through
`get_files_in_queue`, print `json.loads(blob)['path_display']` for every
collected entry (`none` marks a blob without that key, where Python would
raise `KeyError`), and close the handle only when `--flush` is set.
Returns the printed values and the resulting state. -/
def peek (queueName : Option String) (flush : Bool) (st : PeekState) :
    List (Option String) × PeekState :=
  if pyTruthy queueName = false then ([], st)
  else
    let h := openQueue st.store
    let res := get_files_in_queue st.shared h
    let printed := res.1.map (fun b => Json.lookupStr b "path_display")
    let store2 := if flush then closeStore res.2 else abandonStore res.2
    (printed, ⟨res.1, store2⟩)

/-- The observable actions of one `ls` loop body (src lines 149-166):
the exclusion notice, the formatted listing line (its `sizeof_fmt` float
formatting abstracted to the raw size and timestamp), and a queue push. -/
inductive LsEvent where
  | excluding (path : String)
  | listed (path : String) (size : Nat) (client_modified : Option DateTime)
  | pushed (blob : Json)

def LsEvent.isPushed : LsEvent → Bool
  | .pushed _ => true
  | _ => false

def hasPushed (es : List LsEvent) : Bool := es.any LsEvent.isPushed

/-- Embeds the per-entry body of the `ls` loop (src lines 149-166):
skip (with a notice) any entry whose path starts with an exclusion prefix;
otherwise print the formatted line and, when a queue is configured and
`getattr(entry, 'size', None) != None`, serialize the four fields of a
`FakeFile` and push the JSON blob.  `qc` is whether `--pushFilesToQueue`
was given (so `queue != None`). -/
def lsEntry (qc : Bool) (excludePaths : List String) (e : RemoteEntry) :
    List LsEvent :=
  if excludePaths.any (pyStartswith e.path_display) then
    [.excluding e.path_display]
  else
    [.listed e.path_display (e.size?.getD 0) e.client_modified?] ++
      (if qc then
        match e with
        | .file p s sm cm =>
          [.pushed (encodeWorkItem ⟨p, s, isoformat sm, isoformat cm⟩)]
        | .folder _ => []
      else [])

/-- Embeds the queue-driven branch of `get` (src lines 233-245): reopen the
named queue, pop one blob, stop successfully when the queue is empty,
otherwise decode the Work Item, run `copy_dropbox_file`, and close the
queue (committing the pop) before the next iteration — so the persisted
store after each iteration is the remaining list.  Returns the transfer
events, the final outcome, and the blobs left persisted when the run ends
(`copy_dropbox_file` calling `sys.exit` leaves the rest unprocessed).
A blob that does not decode as a Work Item aborts with the uncaught-exception
exit status 1; every blob the repository pushes decodes. -/
def get_pull_from_queue (excludePaths : List String) (dest_path : String)
    (fs : Fs) : List Json → List CEvent × Outcome × List Json
  | [] => ([], .ok, [])
  | b :: rest =>
    match decodeWorkItem b with
    | none => ([], .exited 1, rest)
    | some w =>
      let r := copy_dropbox_file excludePaths dest_path fs w.toEntry
      match r.outcome with
      | .ok =>
        let t := get_pull_from_queue excludePaths dest_path fs rest
        (r.events ++ t.1, t.2.1, t.2.2)
      | .exited c => (r.events, .exited c, rest)

/-- One page of a Dropbox listing response. -/
structure Page where
  entries : List RemoteEntry
  has_more : Bool
  cursor : String

/-- The listing responses of the remote service during one run:
`listFolder` answers `files_list_folder` (the claims' scenario fixes the
path and recursion arguments) and `continueFolder` answers
`files_list_folder_continue` for a cursor. -/
structure Server where
  listFolder : Page
  continueFolder : String → Page

/-- Embeds the direct-mode branch of `get` (src lines 246-257) exactly as
written: the `while True` body first re-issues `files_list_folder`
(clobbering whatever the previous iteration fetched), passes each entry of
that page to `copy_dropbox_file` (collected here as the visit list; the
claims' scenario has every transfer succeed), and then, when `has_more`,
fetches the continuation page — whose value the next iteration immediately
overwrites.  `fuel` bounds the number of iterations; the returned Bool is
whether the loop reached `break` within that bound. -/
def getDirectLoop (srv : Server) : Nat → List RemoteEntry → List RemoteEntry × Bool
  | 0, visited => (visited, false)
  | Nat.succ fuel, visited =>
    let files := srv.listFolder
    let visited2 := visited ++ files.entries
    if files.has_more then
      let _discarded := srv.continueFolder files.cursor
      getDirectLoop srv fuel visited2
    else (visited2, true)

/-- A filesystem oracle on which every operation succeeds and every path
already exists, used by concrete witnesses. -/
def fsAllOk : Fs := ⟨fun _ => true, fun _ => true, fun _ => true, fun _ => true⟩

/-- A sample timestamp used by concrete witnesses. -/
def sampleDT : DateTime := ⟨2020, 1, 2, 3, 4, 5⟩

/-- Draining a handle pops its committed sequence in order onto the shared
accumulator and leaves the handle empty. -/
theorem get_files_in_queue_eq (shared front ps : List Json) :
    get_files_in_queue shared ⟨front, ps⟩ = (shared ++ front, ⟨[], ps⟩) := by
  induction front generalizing shared with
  | nil => simp [get_files_in_queue]
  | cons b rest ih => simp [get_files_in_queue, ih]

/-- The first key of an encoded Work Item is its path. -/
theorem lookupStr_encode_path (w : WorkItem) :
    Json.lookupStr (encodeWorkItem w) "path_display" = some w.path_display := rfl

/-- C10: invoking `peek` without a queue name is a complete no-op — it
returns immediately without opening any queue, printing any item, or
changing the state of any persisted queue. -/
theorem peek_without_queue_name_is_noop :
    ∀ (flush : Bool) (st : PeekState), peek none flush st = ([], st) := by
  intro flush st
  rfl

/-- C9: the list collected by `get_files_in_queue` is class-level shared
state (`FakeFileList.entries`): the result of a second call still contains
every entry accumulated by the first call, followed by the second queue's
own items. -/
theorem get_files_in_queue_accumulates_class_state :
    ∀ q1 q2 : List Json,
      (get_files_in_queue ((get_files_in_queue [] (openQueue q1)).1) (openQueue q2)).1
        = (get_files_in_queue [] (openQueue q1)).1 ++ q2 := by
  intro q1 q2
  simp [openQueue, get_files_in_queue_eq]

/-- C8: for every entry whose size is zero or absent, the Transfer Executor
logs the skip message and returns success as a no-op — no directory
creation, no download, no timestamp application. -/
theorem transfer_skips_empty_entries (excludePaths : List String)
    (dest_path : String) (fs : Fs) (entry : Entry)
    (h : sizeTruthy entry.size = false) :
    copy_dropbox_file excludePaths dest_path fs entry
      = ⟨[.skipEmpty entry.path_display], .ok⟩ := by
  simp [copy_dropbox_file, h]

/-- Witness for C8 at a concrete size-absent entry. -/
theorem transfer_skips_empty_entries_witness :
    sizeTruthy (Entry.mk "/dir/sub" none .absent .absent).size = false ∧
    copy_dropbox_file ["/x"] "/d"
        ⟨fun _ => false, fun _ => true, fun _ => true, fun _ => true⟩
        ⟨"/dir/sub", none, .absent, .absent⟩
      = ⟨[.skipEmpty "/dir/sub"], .ok⟩ :=
  ⟨rfl, transfer_skips_empty_entries ["/x"] "/d"
    ⟨fun _ => false, fun _ => true, fun _ => true, fun _ => true⟩
    ⟨"/dir/sub", none, .absent, .absent⟩ rfl⟩

/-- C2 counterexample: with a queue sink configured and no exclusion match,
`ls` serializes and pushes an entry whose size attribute is `0` — the blob
for the size-0 file appears among the loop body's events, refuting
"an entry whose size attribute is 0 ... is printed but never enqueued". -/
theorem ls_pushes_size_zero_entry :
    lsEntry true [] (.file "/empty.txt" 0 ⟨2020, 1, 2, 3, 4, 5⟩ ⟨2020, 1, 2, 3, 4, 5⟩)
      = [.listed "/empty.txt" 0 (some ⟨2020, 1, 2, 3, 4, 5⟩),
         .pushed (encodeWorkItem ⟨"/empty.txt", 0,
           isoformat ⟨2020, 1, 2, 3, 4, 5⟩, isoformat ⟨2020, 1, 2, 3, 4, 5⟩⟩)] ∧
    hasPushed (lsEntry true []
        (.file "/empty.txt" 0 ⟨2020, 1, 2, 3, 4, 5⟩ ⟨2020, 1, 2, 3, 4, 5⟩)) = true :=
  ⟨rfl, rfl⟩

/-- C2 (amended): with a queue sink configured, the `ls` loop body pushes a
serialized Work Item exactly when the entry matches no exclusion prefix and
its size attribute is present (`!= None`), regardless of the size's value;
an entry lacking the size attribute is printed but never enqueued. -/
theorem ls_push_iff_size_attribute_present :
    (∀ (qc : Bool) (excludePaths : List String) (e : RemoteEntry),
        hasPushed (lsEntry qc excludePaths e)
          = (qc && !(excludePaths.any (pyStartswith e.path_display))
              && e.size?.isSome)) ∧
    (∀ (qc : Bool) (excludePaths : List String) (e : RemoteEntry),
        excludePaths.any (pyStartswith e.path_display) = false →
        (lsEntry qc excludePaths e).head?
          = some (.listed e.path_display (e.size?.getD 0) e.client_modified?)) := by
  constructor
  · intro qc excludePaths e
    cases e with
    | file p s sm cm =>
      cases hex : excludePaths.any (pyStartswith p) with
      | true =>
        simp [lsEntry, RemoteEntry.path_display, hex, hasPushed, LsEvent.isPushed]
      | false =>
        cases qc <;>
          simp [lsEntry, RemoteEntry.path_display, RemoteEntry.size?, hex,
            hasPushed, LsEvent.isPushed]
    | folder p =>
      cases hex : excludePaths.any (pyStartswith p) with
      | true =>
        simp [lsEntry, RemoteEntry.path_display, hex, hasPushed, LsEvent.isPushed]
      | false =>
        cases qc <;>
          simp [lsEntry, RemoteEntry.path_display, RemoteEntry.size?, hex,
            hasPushed, LsEvent.isPushed]
  · intro qc excludePaths e hex
    simp [lsEntry, hex]

/-- Witness for C2 (amended) at a concrete folder entry with no exclusions. -/
theorem ls_push_iff_size_attribute_present_witness :
    hasPushed (lsEntry true [] (.folder "/dir"))
      = (true && !(([] : List String).any
          (pyStartswith (RemoteEntry.folder "/dir").path_display))
          && (RemoteEntry.folder "/dir").size?.isSome) ∧
    (([] : List String).any
        (pyStartswith (RemoteEntry.folder "/dir").path_display) = false) ∧
    (lsEntry true [] (.folder "/dir")).head?
      = some (.listed (RemoteEntry.folder "/dir").path_display
          ((RemoteEntry.folder "/dir").size?.getD 0)
          (RemoteEntry.folder "/dir").client_modified?) :=
  ⟨ls_push_iff_size_attribute_present.1 true [] (.folder "/dir"), rfl,
   ls_push_iff_size_attribute_present.2 true [] (.folder "/dir") rfl⟩

/-- C7 counterexample: an entry whose path matches an exclusion prefix but
whose size is absent is skipped by the Transfer Executor with the
empty-skip notice, not the exclusion notice — the executor's size check
precedes its exclusion check, refuting "an exclusion notice is emitted"
for every excluded entry. -/
theorem executor_excluded_empty_entry_gets_no_exclusion_notice :
    copy_dropbox_file ["/tmp"] "/dst"
        ⟨fun _ => true, fun _ => true, fun _ => true, fun _ => true⟩
        ⟨"/tmp/x", none, .absent, .absent⟩
      = ⟨[.skipEmpty "/tmp/x"], .ok⟩ ∧
    hasExcludingC (copy_dropbox_file ["/tmp"] "/dst"
        ⟨fun _ => true, fun _ => true, fun _ => true, fun _ => true⟩
        ⟨"/tmp/x", none, .absent, .absent⟩).events = false :=
  ⟨rfl, rfl⟩

/-- C7 (amended): for every entry whose path starts with a configured
exclusion prefix, both components skip it — it is never serialized or
pushed by the Enumerator, and the Transfer Executor performs no directory
creation, download or timestamp application and returns success; the
Enumerator always emits the exclusion notice, while the Transfer Executor
emits it only when the entry's size is positive and emits the empty-skip
notice instead when the size is 0 or absent. -/
theorem exclusion_skips_both_components :
    (∀ (qc : Bool) (excludePaths : List String) (e : RemoteEntry),
        excludePaths.any (pyStartswith e.path_display) = true →
        lsEntry qc excludePaths e = [.excluding e.path_display]) ∧
    (∀ (excludePaths : List String) (dest_path : String) (fs : Fs) (entry : Entry),
        excludePaths.any (pyStartswith entry.path_display) = true →
        (copy_dropbox_file excludePaths dest_path fs entry).outcome = .ok ∧
        hasCreatingC (copy_dropbox_file excludePaths dest_path fs entry).events = false ∧
        hasDownloadingC (copy_dropbox_file excludePaths dest_path fs entry).events = false ∧
        hasUtimeC (copy_dropbox_file excludePaths dest_path fs entry).events = false ∧
        (copy_dropbox_file excludePaths dest_path fs entry).events
          = (if sizeTruthy entry.size then [CEvent.excluding entry.path_display]
             else [CEvent.skipEmpty entry.path_display])) := by
  constructor
  · intro qc excludePaths e hex
    simp [lsEntry, hex]
  · intro excludePaths dest_path fs entry hex
    cases hs : sizeTruthy entry.size with
    | false =>
      simp [copy_dropbox_file, hs, hasCreatingC, hasDownloadingC, hasUtimeC,
        CEvent.isCreatingDir, CEvent.isDownloading, CEvent.isUtime]
    | true =>
      simp [copy_dropbox_file, hs, hex, hasCreatingC, hasDownloadingC, hasUtimeC,
        CEvent.isCreatingDir, CEvent.isDownloading, CEvent.isUtime]

/-- Witness for C7 (amended) at a concrete excluded positive-size entry. -/
theorem exclusion_skips_both_components_witness :
    (["/tmp"].any (pyStartswith (RemoteEntry.file "/tmp/a.txt" 3
        sampleDT sampleDT).path_display) = true) ∧
    lsEntry false ["/tmp"] (.file "/tmp/a.txt" 3 sampleDT sampleDT)
      = [.excluding (RemoteEntry.file "/tmp/a.txt" 3 sampleDT sampleDT).path_display] ∧
    (copy_dropbox_file ["/tmp"] "/dst" fsAllOk
        ⟨"/tmp/a.txt", some 3, .dt sampleDT, .dt sampleDT⟩).outcome = .ok ∧
    (copy_dropbox_file ["/tmp"] "/dst" fsAllOk
        ⟨"/tmp/a.txt", some 3, .dt sampleDT, .dt sampleDT⟩).events
      = (if sizeTruthy (Entry.mk "/tmp/a.txt" (some 3)
            (.dt sampleDT) (.dt sampleDT)).size
         then [CEvent.excluding "/tmp/a.txt"] else [CEvent.skipEmpty "/tmp/a.txt"]) := by
  have hex : ["/tmp"].any (pyStartswith (Entry.mk "/tmp/a.txt" (some 3)
      (.dt sampleDT) (.dt sampleDT)).path_display) = true := rfl
  refine ⟨rfl, ?_, ?_, ?_⟩
  · exact exclusion_skips_both_components.1 false ["/tmp"]
      (.file "/tmp/a.txt" 3 sampleDT sampleDT) rfl
  · exact (exclusion_skips_both_components.2 ["/tmp"] "/dst" fsAllOk
      ⟨"/tmp/a.txt", some 3, .dt sampleDT, .dt sampleDT⟩ hex).1
  · exact (exclusion_skips_both_components.2 ["/tmp"] "/dst" fsAllOk
      ⟨"/tmp/a.txt", some 3, .dt sampleDT, .dt sampleDT⟩ hex).2.2.2.2

/-- C3: for every named queue containing n Work Items, `peek` pops items
until `pop` yields none, prints exactly the n `path_display` values in
FIFO order, and leaves the persisted queue empty afterward regardless of
the flush flag — the flag only controls whether the drained handle is
closed.  The shared `FakeFileList.entries` class list is empty at process
start, and the CLI invokes `peek` once per process. -/
theorem peek_drains_and_prints_fifo (queueName : Option String)
    (ws : List WorkItem) (flush : Bool) (h : pyTruthy queueName = true) :
    peek queueName flush ⟨[], ws.map encodeWorkItem⟩
      = (ws.map (fun w => some w.path_display), ⟨ws.map encodeWorkItem, []⟩) := by
  simp [peek, h, openQueue, get_files_in_queue_eq, closeStore, abandonStore,
    List.map_map, Function.comp_def, lookupStr_encode_path]

/-- Witness for C3 on a concrete queue of two Work Items, without flush. -/
theorem peek_drains_and_prints_fifo_witness :
    pyTruthy (some "q1") = true ∧
    peek (some "q1") false
        ⟨[], ([⟨"/a", 1, "s1", "c1"⟩, ⟨"/b", 2, "s2", "c2"⟩] : List WorkItem).map encodeWorkItem⟩
      = (([⟨"/a", 1, "s1", "c1"⟩, ⟨"/b", 2, "s2", "c2"⟩] : List WorkItem).map
            (fun w => some w.path_display),
         ⟨([⟨"/a", 1, "s1", "c1"⟩, ⟨"/b", 2, "s2", "c2"⟩] : List WorkItem).map encodeWorkItem,
          []⟩) :=
  ⟨rfl, peek_drains_and_prints_fifo (some "q1")
    [⟨"/a", 1, "s1", "c1"⟩, ⟨"/b", 2, "s2", "c2"⟩] false rfl⟩

/-- C4: for every entry whose transfer succeeds through the download step
(and whose timestamps resolve and apply), the Transfer Executor's final
action sets the local file's (access-time, modification-time) pair to
(server_modified, client_modified) respectively, each field accepted
either as a structured timestamp or as a `YYYY-MM-DDTHH:MM:SS` string. -/
theorem transfer_sets_atime_server_mtime_client
    (excludePaths : List String) (dest_path : String) (fs : Fs) (entry : Entry)
    (sm cm : DateTime)
    (hsz : sizeTruthy entry.size = true)
    (hex : excludePaths.any (pyStartswith entry.path_display) = false)
    (hdir : fs.pathExists (localDirOf dest_path entry.path_display) = true
        ∨ fs.mkdirOk (localDirOf dest_path entry.path_display) = true)
    (hdl : fs.downloadOk (destOf dest_path entry.path_display) = true)
    (hsm : resolveTm entry.server_modified = some sm)
    (hcm : resolveTm entry.client_modified = some cm)
    (hut : fs.utimeOk (destOf dest_path entry.path_display) = true) :
    (copy_dropbox_file excludePaths dest_path fs entry).outcome = .ok ∧
    (copy_dropbox_file excludePaths dest_path fs entry).events.getLast?
      = some (.utime (destOf dest_path entry.path_display) sm cm) := by
  cases hpe : fs.pathExists (localDirOf dest_path entry.path_display) with
  | true => simp [copy_dropbox_file, hsz, hex, hpe, hdl, hsm, hcm, hut]
  | false =>
    rcases hdir with h | h
    · rw [hpe] at h; cases h
    · simp [copy_dropbox_file, hsz, hex, hpe, h, hdl, hsm, hcm, hut]

/-- Witness for C4: a concrete entry carrying a structured server timestamp
and a string client timestamp, with every filesystem operation succeeding. -/
theorem transfer_sets_atime_server_mtime_client_witness :
    sizeTruthy (Entry.mk "/a/b.txt" (some 5) (.dt sampleDT)
        (.str "2019-03-04T05:06:07")).size = true ∧
    resolveTm (Tm.str "2019-03-04T05:06:07") = some ⟨2019, 3, 4, 5, 6, 7⟩ ∧
    (copy_dropbox_file [] "/dst" fsAllOk
        ⟨"/a/b.txt", some 5, .dt sampleDT, .str "2019-03-04T05:06:07"⟩).outcome = .ok ∧
    (copy_dropbox_file [] "/dst" fsAllOk
        ⟨"/a/b.txt", some 5, .dt sampleDT, .str "2019-03-04T05:06:07"⟩).events.getLast?
      = some (.utime (destOf "/dst" "/a/b.txt") sampleDT ⟨2019, 3, 4, 5, 6, 7⟩) := by
  have h := transfer_sets_atime_server_mtime_client [] "/dst" fsAllOk
    ⟨"/a/b.txt", some 5, .dt sampleDT, .str "2019-03-04T05:06:07"⟩
    sampleDT ⟨2019, 3, 4, 5, 6, 7⟩ rfl rfl (Or.inl rfl) rfl rfl rfl rfl
  exact ⟨rfl, rfl, h.1, h.2⟩

/-- C5: the Work Item `ls` serializes from a file entry is a JSON object
with exactly the four keys `path_display`, `size`, `server_modified`,
`client_modified` (in that order), it survives a push, close, reopen, pop
round trip unchanged, and decoding recovers all four field values
identical to the values serialized from the remote entry. -/
theorem work_item_wire_format_and_roundtrip :
    ∀ (p : String) (s : Nat) (sm cm : DateTime),
      lsEntry true [] (.file p s sm cm)
        = [.listed p s (some cm),
           .pushed (encodeWorkItem ⟨p, s, isoformat sm, isoformat cm⟩)] ∧
      (encodeWorkItem ⟨p, s, isoformat sm, isoformat cm⟩).keys
        = ["path_display", "size", "server_modified", "client_modified"] ∧
      ((openQueue (closeStore ((openQueue []).push
          (encodeWorkItem ⟨p, s, isoformat sm, isoformat cm⟩)))).pop).1
        = some (encodeWorkItem ⟨p, s, isoformat sm, isoformat cm⟩) ∧
      decodeWorkItem (encodeWorkItem ⟨p, s, isoformat sm, isoformat cm⟩)
        = some ⟨p, s, isoformat sm, isoformat cm⟩ := by
  intro p s sm cm
  exact ⟨rfl, rfl, rfl, rfl⟩

/-- A filesystem oracle on which the destination directory is missing and
cannot be created, used by a concrete witness. -/
def fsNoDir : Fs := ⟨fun _ => false, fun _ => false, fun _ => true, fun _ => true⟩

/-- C6: in the Transfer Executor, a failure to create the local destination
directory, a failure of the remote download, or a failure to parse or apply
the timestamps each calls `sys.exit(1)`; in the queue-driven drain the exit
aborts the whole run, leaving every further queue item unprocessed. -/
theorem transfer_failures_abort_run :
    (∀ (excludePaths : List String) (dest_path : String) (fs : Fs) (entry : Entry),
        sizeTruthy entry.size = true →
        excludePaths.any (pyStartswith entry.path_display) = false →
        fs.pathExists (localDirOf dest_path entry.path_display) = false →
        fs.mkdirOk (localDirOf dest_path entry.path_display) = false →
        copy_dropbox_file excludePaths dest_path fs entry
          = ⟨[.creatingDir (localDirOf dest_path entry.path_display)], .exited 1⟩) ∧
    (∀ (excludePaths : List String) (dest_path : String) (fs : Fs) (entry : Entry),
        sizeTruthy entry.size = true →
        excludePaths.any (pyStartswith entry.path_display) = false →
        (fs.pathExists (localDirOf dest_path entry.path_display) = true
          ∨ fs.mkdirOk (localDirOf dest_path entry.path_display) = true) →
        fs.downloadOk (destOf dest_path entry.path_display) = false →
        (copy_dropbox_file excludePaths dest_path fs entry).outcome = .exited 1 ∧
        hasUtimeC (copy_dropbox_file excludePaths dest_path fs entry).events = false) ∧
    (∀ (excludePaths : List String) (dest_path : String) (fs : Fs) (entry : Entry),
        sizeTruthy entry.size = true →
        excludePaths.any (pyStartswith entry.path_display) = false →
        (fs.pathExists (localDirOf dest_path entry.path_display) = true
          ∨ fs.mkdirOk (localDirOf dest_path entry.path_display) = true) →
        fs.downloadOk (destOf dest_path entry.path_display) = true →
        (resolveTm entry.server_modified = none
          ∨ resolveTm entry.client_modified = none
          ∨ fs.utimeOk (destOf dest_path entry.path_display) = false) →
        (copy_dropbox_file excludePaths dest_path fs entry).outcome = .exited 1 ∧
        hasUtimeC (copy_dropbox_file excludePaths dest_path fs entry).events = false) ∧
    (∀ (b : Json) (rest : List Json) (excludePaths : List String)
        (dest_path : String) (fs : Fs) (w : WorkItem),
        decodeWorkItem b = some w →
        (copy_dropbox_file excludePaths dest_path fs w.toEntry).outcome = .exited 1 →
        get_pull_from_queue excludePaths dest_path fs (b :: rest)
          = ((copy_dropbox_file excludePaths dest_path fs w.toEntry).events,
             .exited 1, rest)) := by
  refine ⟨?_, ?_, ?_, ?_⟩
  · intro excludePaths dest_path fs entry hsz hex hpe hmk
    simp [copy_dropbox_file, hsz, hex, hpe, hmk]
  · intro excludePaths dest_path fs entry hsz hex hdir hdl
    cases hpe : fs.pathExists (localDirOf dest_path entry.path_display) with
    | true =>
      simp [copy_dropbox_file, hsz, hex, hpe, hdl, hasUtimeC, CEvent.isUtime]
    | false =>
      rcases hdir with h | h
      · rw [hpe] at h; cases h
      · simp [copy_dropbox_file, hsz, hex, hpe, h, hdl, hasUtimeC, CEvent.isUtime]
  · intro excludePaths dest_path fs entry hsz hex hdir hdl hmeta
    have hdc : fs.pathExists (localDirOf dest_path entry.path_display) = true
        ∨ (fs.pathExists (localDirOf dest_path entry.path_display) = false
            ∧ fs.mkdirOk (localDirOf dest_path entry.path_display) = true) := by
      cases hpe : fs.pathExists (localDirOf dest_path entry.path_display) with
      | true => exact Or.inl rfl
      | false =>
        rcases hdir with h | h
        · rw [hpe] at h; cases h
        · exact Or.inr ⟨rfl, h⟩
    rcases hdc with hpe | ⟨hpe, hmk⟩
    · rcases hsm : resolveTm entry.server_modified with _ | m
      · simp [copy_dropbox_file, hsz, hex, hpe, hdl, hsm,
          hasUtimeC, CEvent.isUtime]
      · rcases hcm : resolveTm entry.client_modified with _ | c
        · simp [copy_dropbox_file, hsz, hex, hpe, hdl, hsm, hcm,
            hasUtimeC, CEvent.isUtime]
        · rcases hmeta with h | h | h
          · simp [hsm] at h
          · simp [hcm] at h
          · simp [copy_dropbox_file, hsz, hex, hpe, hdl, hsm, hcm, h,
              hasUtimeC, CEvent.isUtime]
    · rcases hsm : resolveTm entry.server_modified with _ | m
      · simp [copy_dropbox_file, hsz, hex, hpe, hmk, hdl, hsm,
          hasUtimeC, CEvent.isUtime]
      · rcases hcm : resolveTm entry.client_modified with _ | c
        · simp [copy_dropbox_file, hsz, hex, hpe, hmk, hdl, hsm, hcm,
            hasUtimeC, CEvent.isUtime]
        · rcases hmeta with h | h | h
          · simp [hsm] at h
          · simp [hcm] at h
          · simp [copy_dropbox_file, hsz, hex, hpe, hmk, hdl, hsm, hcm, h,
              hasUtimeC, CEvent.isUtime]
  · intro b rest excludePaths dest_path fs w hdec hexit
    simp only [get_pull_from_queue, hdec]
    rw [hexit]

/-- Witness for C6: a directory-creation failure at a concrete entry, and a
concrete two-item queue drain aborted by an unparsable timestamp on the
first item, leaving the second item in the queue. -/
theorem transfer_failures_abort_run_witness :
    copy_dropbox_file [] "/dst" fsNoDir ⟨"/a/b.txt", some 5, .dt sampleDT, .dt sampleDT⟩
      = ⟨[.creatingDir (localDirOf "/dst" "/a/b.txt")], .exited 1⟩ ∧
    get_pull_from_queue [] "/dst" fsAllOk
        [encodeWorkItem ⟨"/a/b.txt", 5, "bad", "bad"⟩, encodeWorkItem ⟨"/c", 1, "s", "c"⟩]
      = ((copy_dropbox_file [] "/dst" fsAllOk
            (WorkItem.toEntry ⟨"/a/b.txt", 5, "bad", "bad"⟩)).events,
         .exited 1, [encodeWorkItem ⟨"/c", 1, "s", "c"⟩]) := by
  constructor
  · exact transfer_failures_abort_run.1 [] "/dst" fsNoDir
      ⟨"/a/b.txt", some 5, .dt sampleDT, .dt sampleDT⟩ rfl rfl rfl rfl
  · exact transfer_failures_abort_run.2.2.2
      (encodeWorkItem ⟨"/a/b.txt", 5, "bad", "bad"⟩)
      [encodeWorkItem ⟨"/c", 1, "s", "c"⟩] [] "/dst" fsAllOk
      ⟨"/a/b.txt", 5, "bad", "bad"⟩ rfl rfl

/-- The file entry of the first page in the two-page listing scenario. -/
def page1Entry : RemoteEntry := .file "/f1.txt" 4 sampleDT sampleDT

/-- The file entry of the continuation page in the two-page scenario. -/
def page2Entry : RemoteEntry := .file "/f2.txt" 7 sampleDT sampleDT

/-- A listing split across two pages: the first page reports `has_more`,
the continuation page is final. -/
def twoPageServer : Server where
  listFolder := ⟨[page1Entry], true, "cursor1"⟩
  continueFolder := fun _ => ⟨[page2Entry], false, "cursor2"⟩

theorem twoPage_entries : twoPageServer.listFolder.entries = [page1Entry] := rfl

theorem twoPage_hasMore : twoPageServer.listFolder.has_more = true := rfl

/-- On the two-page listing, every iteration of the direct-mode loop
re-fetches and processes the first page and never breaks. -/
theorem getDirectLoop_twoPage (n : Nat) :
    ∀ acc, getDirectLoop twoPageServer n acc
      = (acc ++ List.replicate n page1Entry, false) := by
  induction n with
  | zero => intro acc; simp [getDirectLoop]
  | succ k ih =>
    intro acc
    simp [getDirectLoop, twoPage_entries, twoPage_hasMore, ih, List.replicate_succ]

/-- C1 fails on the code: on a listing split across two pages
(`has_more=true` then `has_more=false`), the direct-mode `get` loop
re-issues `files_list_folder` at the top of every iteration, so however
many iterations run it passes the first page's entry to the Transfer
Executor once per iteration, never passes the continuation page's entry,
and never terminates. -/
theorem get_direct_mode_repeats_first_page_forever :
    ∀ fuel : Nat,
      getDirectLoop twoPageServer fuel [] = (List.replicate fuel page1Entry, false) ∧
      page2Entry ∉ (getDirectLoop twoPageServer fuel []).1 := by
  intro fuel
  constructor
  · simpa using getDirectLoop_twoPage fuel []
  · rw [getDirectLoop_twoPage fuel []]
    intro hmem
    rw [List.nil_append] at hmem
    exact absurd (List.eq_of_mem_replicate hmem) (by decide)

/-- Witness for C1 at two loop iterations: the first-page entry has been
visited twice, the continuation entry not at all, and the loop has not
terminated. -/
theorem get_direct_mode_repeats_first_page_forever_witness :
    getDirectLoop twoPageServer 2 [] = ([page1Entry, page1Entry], false) ∧
    page2Entry ∉ (getDirectLoop twoPageServer 2 []).1 :=
  ⟨(get_direct_mode_repeats_first_page_forever 2).1,
   (get_direct_mode_repeats_first_page_forever 2).2⟩

end Pydbxcli
